import Mathlib

/-!
Verification of the resource-access and response-cache engine of the
Shareabouts API v2 (`src/sa_api_v2/views/base_views.py`), shallowly embedded.

The embedding covers:
* the jQuery cache-buster stripping `re.sub(r'&?_=\d+', '', querystring)`
  and the cache-key derivation of `CachedResourceMixin.get_cache_key`;
* the cached `dispatch` / `cache_response` logic of `CachedResourceMixin`;
* client-principal resolution (`ShareaboutsAPIRequest._authenticate_client`)
  and the `client_auth` property;
* object identity verification (`OwnedResourceMixin.is_verified_object` and
  `verify_object`) together with the `QueryError` status code.
-/

namespace Shareabouts

/-! ### Cache-buster stripping

`get_cache_key` removes the jQuery cache-busting parameter with
`re.sub(re.compile(r'&?_=\d+'), '', querystring)`.  We embed the matcher of
the pattern `&?_=\d+` and the left-to-right, non-overlapping substitution
loop of `re.sub` over the character list of the query string. -/

/-- Matcher for the regex tail `\d+` at the head of `cs`: requires at least
one digit, then greedily consumes the maximal digit run; returns the suffix
after the match, or `none` when no digit is present. -/
def chompDigits : List Char → Option (List Char)
  | [] => none
  | c :: cs => if c.isDigit then some (cs.dropWhile Char.isDigit) else none

/-- Matcher for the full pattern `&?_=\d+` anchored at the head of the list.
A match needs at least three characters (`_=` plus one digit).  When the head
is `'&'`, the optional `&?` branch is the only one that can apply (the
alternative without `&` would have to start with `'_'`).  Returns the suffix
after the match. -/
def matchBuster : List Char → Option (List Char)
  | c1 :: c2 :: c3 :: rest =>
    if c1 = '&' ∧ c2 = '_' ∧ c3 = '=' then chompDigits rest
    else if c1 = '_' ∧ c2 = '=' then chompDigits (c3 :: rest)
    else none
  | _ => none

theorem length_dropWhile_le (p : Char → Bool) :
    ∀ l : List Char, (l.dropWhile p).length ≤ l.length := by
  intro l
  induction l with
  | nil => simp
  | cons c cs ih =>
    by_cases hc : p c
    · simp only [List.dropWhile_cons, hc, if_pos, List.length_cons]
      omega
    · simp [List.dropWhile_cons, hc]

/-- A successful match strictly shortens the list. -/
theorem chompDigits_length {xs r : List Char} (h : chompDigits xs = some r) :
    r.length < xs.length := by
  cases xs with
  | nil => simp [chompDigits] at h
  | cons c cs =>
    by_cases hc : c.isDigit
    · simp only [chompDigits, hc, if_pos, Option.some.injEq] at h
      subst h
      exact Nat.lt_succ_of_le (length_dropWhile_le _ _)
    · simp [chompDigits, hc] at h

/-- A successful match of `&?_=\d+` strictly shortens the list. -/
theorem matchBuster_length {l r : List Char} (h : matchBuster l = some r) :
    r.length < l.length := by
  match l with
  | [] => simp [matchBuster] at h
  | [c1] => simp [matchBuster] at h
  | [c1, c2] => simp [matchBuster] at h
  | c1 :: c2 :: c3 :: rest =>
    simp only [matchBuster] at h
    split at h
    · have := chompDigits_length h
      simp only [List.length_cons]
      omega
    · split at h
      · have := chompDigits_length h
        simp only [List.length_cons] at this ⊢
        omega
      · exact absurd h (by simp)

/-- The substitution loop of `re.sub`: scan left to right; at each position,
if the pattern matches, drop the matched characters and continue after the
match (non-overlapping), otherwise keep the character and move on.  Fueled so
that the kernel can evaluate it; `subBuster` supplies fuel `l.length`, which
the lemmas below show is always sufficient. -/
def subBusterAux : Nat → List Char → List Char
  | 0, _ => []
  | _ + 1, [] => []
  | n + 1, c :: cs =>
    match matchBuster (c :: cs) with
    | some rest => subBusterAux n rest
    | none => c :: subBusterAux n cs

/-- `re.sub(r'&?_=\d+', '', ·)` over a character list. -/
def subBuster (l : List Char) : List Char :=
  subBusterAux l.length l

theorem subBusterAux_nil : ∀ n, subBusterAux n [] = []
  | 0 => rfl
  | _ + 1 => rfl

/-- The result of `subBusterAux` does not depend on the fuel, as long as the
fuel is at least the length of the list. -/
theorem subBusterAux_fuel :
    ∀ (n m : Nat) (l : List Char), l.length ≤ n → l.length ≤ m →
      subBusterAux n l = subBusterAux m l := by
  intro n
  induction n with
  | zero =>
    intro m l hn _
    have hl : l = [] := List.eq_nil_of_length_eq_zero (Nat.le_zero.mp hn)
    subst hl
    rw [subBusterAux_nil, subBusterAux_nil]
  | succ n ih =>
    intro m l hn hm
    cases l with
    | nil => rw [subBusterAux_nil, subBusterAux_nil]
    | cons c cs =>
      cases m with
      | zero => exact absurd hm (by simp)
      | succ m =>
        show subBusterAux (n + 1) (c :: cs) = subBusterAux (m + 1) (c :: cs)
        simp only [subBusterAux]
        cases hmb : matchBuster (c :: cs) with
        | some rest =>
          have hlen := matchBuster_length hmb
          simp only [List.length_cons] at hn hm hlen
          exact ih m rest (by omega) (by omega)
        | none =>
          simp only [List.length_cons] at hn hm
          rw [ih m cs (by omega) (by omega)]

/-- Unfolding equation of `subBuster` when the pattern matches at the head. -/
theorem subBuster_some {c : Char} {cs rest : List Char}
    (h : matchBuster (c :: cs) = some rest) :
    subBuster (c :: cs) = subBuster rest := by
  unfold subBuster
  have hlen := matchBuster_length h
  simp only [List.length_cons, subBusterAux, h]
  exact subBusterAux_fuel cs.length rest.length rest
    (by simp only [List.length_cons] at hlen; omega) (Nat.le_refl _)

/-- Unfolding equation of `subBuster` when the pattern does not match at the
head. -/
theorem subBuster_none {c : Char} {cs : List Char}
    (h : matchBuster (c :: cs) = none) :
    subBuster (c :: cs) = c :: subBuster cs := by
  unfold subBuster
  simp only [List.length_cons, subBusterAux, h]

theorem subBuster_nil : subBuster [] = [] := rfl

/-- The query string with the cache-busting parameter removed, as in
`CachedResourceMixin.get_cache_key` (base_views.py:521-524). -/
def stripCacheBuster (querystring : String) : String :=
  String.mk (subBuster querystring.data)

/-! ### Group token and cache-key derivation

`CachedResourceMixin.get_cache_key` (base_views.py:498-526) computes a
`groups` string from the authenticated user and the view's dataset, strips
the cache buster from the query string and joins
`[cache_prefix, contenttype, querystring, groups]` with `':'`. -/

/-- A row of the `Group` model as far as the cache key is concerned:
`group.dataset_id` and `group.name`. -/
structure Group where
  dataset_id : Nat
  name : String
deriving DecidableEq

/-- An authenticated user: `request.user.id` and the rows of
`request.user._groups.all()`, in the order the query returns them.
An anonymous request (no `user` attribute, or `is_authenticated()` false) is
modelled as `none : Option AuthUser`. -/
structure AuthUser where
  id : Nat
  groups : List Group
deriving DecidableEq

/-- The dataset of the view: `dataset.id` and `dataset.owner_id`.
`self.get_dataset()` returning no dataset is modelled as
`none : Option Dataset`. -/
structure Dataset where
  id : Nat
  owner_id : Nat
deriving DecidableEq

/-- The loop
`for group in request.user._groups.all(): if group.dataset_id == dataset.id: group_set.append(group.name)`
(base_views.py:513-516). -/
def groupNamesLoop : List Group → Nat → List String
  | [], _ => []
  | g :: gs, datasetId =>
    if g.dataset_id = datasetId then g.name :: groupNamesLoop gs datasetId
    else groupNamesLoop gs datasetId

/-- The `groups` string of `CachedResourceMixin.get_cache_key`
(base_views.py:502-519): `''` for an anonymous request or a view without a
dataset, `'__owners__'` when the user is the dataset owner, and otherwise the
comma-join of the names of the user's groups on this dataset. -/
def groupToken (user : Option AuthUser) (dataset : Option Dataset) : String :=
  match user with
  | none => ""
  | some u =>
    match dataset with
    | none => ""
    | some ds =>
      if u.id = ds.owner_id then "__owners__"
      else String.intercalate "," (groupNamesLoop u.groups ds.id)

/-- `CachedResourceMixin.get_cache_key` (base_views.py:498-526):
`':'.join([self.cache_prefix, contenttype, querystring, groups])` where
`querystring` has the cache buster stripped.  `cachePath` is
`self.cache_prefix`, i.e. `request.path`; `contenttype` is the request's
`HTTP_ACCEPT` header. -/
def get_cache_key (cachePath querystring contenttype : String)
    (user : Option AuthUser) (dataset : Option Dataset) : String :=
  String.intercalate ":"
    [cachePath, contenttype, stripCacheBuster querystring, groupToken user dataset]

/-- `CachedResourceMixin.get_cache_metakey` (base_views.py:450-452):
`self.cache_prefix + '_keys'`. -/
def get_cache_metakey (cachePath : String) : String :=
  cachePath ++ "_keys"

/-! ### The cached dispatch

`CachedResourceMixin.dispatch` (base_views.py:454-496) and
`cache_response` (base_views.py:534-548), over an explicit cache store.
The Django cache holds, under a cache key, the tuple
`(response.data, status, headers)`, and under a metakey the set of cache keys
ever stored for that view; both with timeout `settings.API_CACHE_TIMEOUT`. -/

/-- `settings.API_CACHE_TIMEOUT` (project/settings.py:38). -/
def API_CACHE_TIMEOUT : Nat := 604800

/-- An HTTP response as far as the cache layer sees it: `response.data`
(an opaque payload), `response.status_code`, and its header items. -/
structure Resp where
  content : String
  status : Nat
  headers : List (String × String)
deriving DecidableEq

/-- The tuple `(data, status, headers)` stored by `cache_response`. -/
structure CachedPage where
  data : String
  status : Nat
  headers : List (String × String)
deriving DecidableEq

/-- The shared Django cache, restricted to what the mixin touches: response
tuples under cache keys and tracked key sets under metakeys, each paired with
the timeout it was stored with. -/
structure CacheState where
  pages : String → Option (CachedPage × Nat)
  keysets : String → Option (List String × Nat)

/-- `django_cache.cache.get(metakey) or set()` (base_views.py:471): the
tracked key set of a metakey, defaulting to empty. -/
def trackedKeys (st : CacheState) (metakey : String) : List String :=
  match st.keysets metakey with
  | some ks => ks.1
  | none => []

/-- `CachedResourceMixin.respond_from_cache` (base_views.py:528-532):
rebuild a response from the cached `(content, status, headers)` tuple. -/
def respond_from_cache (p : CachedPage) : Resp :=
  { content := p.data, status := p.status, headers := p.headers }

/-- `response['Cache-Control'] = 'no-cache'` and friends: setting a header,
replacing any previous value. -/
def setHeader (r : Resp) (k v : String) : Resp :=
  { r with headers := r.headers.filter (fun p => p.1 ≠ k) ++ [(k, v)] }

/-- `CachedResourceMixin.cache_response` (base_views.py:534-548): store the
response tuple under `key`, then add `key` to the tracked key set under the
metakey, both with timeout `settings.API_CACHE_TIMEOUT`. -/
def cache_response (st : CacheState) (key metakey : String) (r : Resp) :
    CacheState :=
  let pages := fun k =>
    if k = key then some (⟨r.content, r.status, r.headers⟩, API_CACHE_TIMEOUT)
    else st.pages k
  let keys := trackedKeys st metakey
  let keys := if key ∈ keys then keys else keys ++ [key]
  { pages := pages,
    keysets := fun k =>
      if k = metakey then some (keys, API_CACHE_TIMEOUT) else st.keysets k }

/-- HTTP methods; `isSafe` is membership in `permissions.SAFE_METHODS`
(`GET`, `HEAD`, `OPTIONS`). -/
inductive Method where
  | GET | HEAD | OPTIONS | POST | PUT | PATCH | DELETE
deriving DecidableEq

def Method.isSafe : Method → Bool
  | .GET | .HEAD | .OPTIONS => true
  | _ => false

/-- The outcome of the cached dispatch: the returned response, the cache
afterwards, whether the response came from the cache, and how many times
`cache_buffer.flush()` ran. -/
structure DispatchResult where
  resp : Resp
  cache : CacheState
  servedFromCache : Bool
  bufferFlushes : Nat

/-- `CachedResourceMixin.dispatch` (base_views.py:454-496).  A non-safe
method is passed straight through (no cache read, no cache write, no buffer
flush, no `Cache-Control` header).  For a safe method, the cached tuple is
served only if it exists and its key is in the tracked key set; otherwise the
inner handler runs and a 200 response is stored via `cache_response`; either
way the write buffer is flushed once and `Cache-Control: no-cache` is set.
`handler` is the response the inner `super().dispatch(...)` produces. -/
def dispatch (m : Method) (key metakey : String) (handler : Resp)
    (st : CacheState) : DispatchResult :=
  if m.isSafe = false then
    { resp := handler, cache := st, servedFromCache := false,
      bufferFlushes := 0 }
  else
    match st.pages key with
    | some p =>
      if key ∈ trackedKeys st metakey then
        { resp := setHeader (respond_from_cache p.1) "Cache-Control" "no-cache",
          cache := st, servedFromCache := true, bufferFlushes := 1 }
      else
        { resp := setHeader handler "Cache-Control" "no-cache",
          cache := if handler.status = 200 then cache_response st key metakey handler else st,
          servedFromCache := false, bufferFlushes := 1 }
    | none =>
      { resp := setHeader handler "Cache-Control" "no-cache",
        cache := if handler.status = 200 then cache_response st key metakey handler else st,
        servedFromCache := false, bufferFlushes := 1 }

/-! ### Client-principal resolution

`ShareaboutsAPIRequest._authenticate_client` (base_views.py:131-158) and the
`client_auth` property (base_views.py:98-106). -/

/-- A structured authentication error (`rest_framework.exceptions.APIException`). -/
structure ApiErr where
  detail : String
deriving DecidableEq

/-- A client application (an `ApiKey` or `Origin` instance). -/
structure Client where
  id : Nat
deriving DecidableEq

/-- An authentication token, as stored in `_auth` / `_client_auth`. -/
abbrev Token := String

/-- What one client authenticator does with this request:
`authenticator.authenticate(self)` raises an `APIException`, returns `None`,
or returns a `(client, token)` tuple. -/
inductive AuthOutcome where
  | raises (e : ApiErr)
  | noResult
  | succeeds (c : Client) (t : Token)
deriving DecidableEq

/-- The loop of `_authenticate_client` (base_views.py:137-149), with the
request's `client_authenticators` represented by their outcomes, in order.
`Except.ok none` is the `_client_not_authenticated()` terminal state (client
`None`, token `None`, no error); an `APIException` propagates immediately. -/
def authenticate_client : List AuthOutcome → Except ApiErr (Option (Client × Token))
  | [] => Except.ok none
  | AuthOutcome.raises e :: _ => Except.error e
  | AuthOutcome.noResult :: rest => authenticate_client rest
  | AuthOutcome.succeeds c t :: _ => Except.ok (some (c, t))

/-- The authentication attributes of a `ShareaboutsAPIRequest`.  Each field
models a Python instance attribute: `none` means the attribute is unset
(`hasattr` false); for the client fields the inner `Option` is the stored
value, which may itself be Python `None`.  `authAttr` is `_auth`, the
subject-authentication token set by DRF's user authentication; `clientAttr`
is `_client`; `clientAuthAttr` is `_client_auth`. -/
structure ReqAuthState where
  authAttr : Option Token
  clientAttr : Option (Option Client)
  clientAuthAttr : Option (Option Token)
deriving DecidableEq

/-- `_authenticate_client` as a state transformer (base_views.py:131-158): on
success it sets `_client` and `_client_auth`; on exhaustion
`_client_not_authenticated` sets both to `None`; an `APIException` propagates
(the unauthenticated state set just before the re-raise is not observed by
the caller).  It never touches `_auth`. -/
def authenticate_client_state (outcomes : List AuthOutcome) (st : ReqAuthState) :
    Except ApiErr ReqAuthState :=
  match outcomes with
  | [] => Except.ok { st with clientAttr := some none, clientAuthAttr := some none }
  | AuthOutcome.raises e :: _ => Except.error e
  | AuthOutcome.noResult :: rest => authenticate_client_state rest st
  | AuthOutcome.succeeds c t :: _ =>
    Except.ok { st with clientAttr := some (some c), clientAuthAttr := some (some t) }

/-- How reading the `client_auth` property can fail: a propagated
`APIException` from `_authenticate_client`, or an `AttributeError` because
`self._auth` is not set. -/
inductive PropFailure where
  | api (e : ApiErr)
  | missingAttr
deriving DecidableEq

/-- The `client_auth` property getter (base_views.py:98-106):
`if not hasattr(self, '_client_auth'): self._authenticate_client()` and then
`return self._auth`. -/
def client_auth_property (outcomes : List AuthOutcome) (st : ReqAuthState) :
    Except PropFailure Token :=
  match st.clientAuthAttr with
  | some _ =>
    match st.authAttr with
    | some v => Except.ok v
    | none => Except.error PropFailure.missingAttr
  | none =>
    match authenticate_client_state outcomes st with
    | Except.error e => Except.error (PropFailure.api e)
    | Except.ok st2 =>
      match st2.authAttr with
      | some v => Except.ok v
      | none => Except.error PropFailure.missingAttr

/-! ### Object identity verification

`OwnedResourceMixin.is_verified_object` (base_views.py:409-421),
`verify_object` (base_views.py:423-431) and `QueryError`
(base_views.py:614-619). -/

/-- A value appearing in `self.kwargs` or in the cached instance parameters:
URL kwargs are strings, cached attributes may be ints.  `unicode(·)` renders
either as a string. -/
inductive PVal where
  | str (s : String)
  | int (n : Int)
deriving DecidableEq

/-- `unicode(v)`: the string rendering used on both sides of the comparison
in `is_verified_object`. -/
def PVal.toStr : PVal → String
  | .str s => s
  | .int n => toString n

/-- Dictionary lookup in an association list. -/
def lookupPVal : List (String × PVal) → String → Option PVal
  | [], _ => none
  | (k, v) :: rest, key => if k = key then some v else lookupPVal rest key

/-- `OwnedResourceMixin.is_verified_object` (base_views.py:409-421): for every
URL kwarg whose key also appears in the object's cached instance parameters,
the two values must agree after `unicode(·)` normalization. -/
def is_verified_object (kwargs params : List (String × PVal)) : Bool :=
  kwargs.all fun kv =>
    match lookupPVal params kv.1 with
    | some pv => kv.2.toStr == pv.toStr
    | none => true

/-- The possible outcomes of `verify_object`: success, the `QueryError`
raised for an invisible object requested without `include_invisible`
(status 400), `Http404`, or a forbidden response (which the code never
produces; included so that "never 403" is statable). -/
inductive VerifyOutcome where
  | ok
  | queryError400
  | http404
  | http403
deriving DecidableEq

/-- The HTTP status a `VerifyOutcome` surfaces as; `QueryError.status_code`
is `status.HTTP_400_BAD_REQUEST` (base_views.py:614-615). -/
def VerifyOutcome.statusCode : VerifyOutcome → Option Nat
  | .ok => none
  | .queryError400 => some 400
  | .http404 => some 404
  | .http403 => some 403

/-- `OwnedResourceMixin.verify_object` (base_views.py:423-431): an invisible
object (`getattr(obj, 'visible', True)` false) requested without the
`include_invisible` parameter raises `QueryError`; then an object failing
`is_verified_object` raises `Http404`. -/
def verify_object (visible includeInvisibleParam : Bool)
    (kwargs params : List (String × PVal)) : VerifyOutcome :=
  if visible = false ∧ includeInvisibleParam = false then
    VerifyOutcome.queryError400
  else if is_verified_object kwargs params = false then
    VerifyOutcome.http404
  else
    VerifyOutcome.ok

/-! ### Helper lemmas -/

/-- `String.append` is left-cancellative. -/
theorem string_append_left_cancel {s t1 t2 : String} (h : s ++ t1 = s ++ t2) :
    t1 = t2 := by
  have hd := congrArg String.data h
  simp only [String.data_append] at hd
  exact String.ext (List.append_cancel_left hd)

theorem dropWhile_digits_append (as u : List Char) :
    (as ++ '&' :: u).dropWhile Char.isDigit
      = as.dropWhile Char.isDigit ++ '&' :: u := by
  have hamp : ('&' : Char).isDigit = false := by decide
  induction as with
  | nil => simp [List.dropWhile_cons, hamp]
  | cons a as ih =>
    by_cases ha : a.isDigit
    · simp [List.dropWhile_cons, ha, ih]
    · simp [List.dropWhile_cons, ha]

/-- Appending `'&' :: u` commutes with `chompDigits`: the appended block
starts with `'&'`, which is not a digit, so the greedy digit run never
crosses into it. -/
theorem chompDigits_append (xs u : List Char) :
    chompDigits (xs ++ '&' :: u)
      = (chompDigits xs).map (fun r => r ++ '&' :: u) := by
  cases xs with
  | nil =>
    have hamp : ('&' : Char).isDigit = false := by decide
    simp [chompDigits, hamp]
  | cons c cs =>
    by_cases hc : c.isDigit
    · simp [chompDigits, hc, dropWhile_digits_append]
    · simp [chompDigits, hc]

/-- Appending `'&' :: u` commutes with the anchored matcher on a nonempty
list: no match of `&?_=\d+` can start inside `l` and extend into the
appended block, because the block starts with `'&'`. -/
theorem matchBuster_append (l u : List Char) (hl : l ≠ []) :
    matchBuster (l ++ '&' :: u)
      = (matchBuster l).map (fun r => r ++ '&' :: u) := by
  match l with
  | [] => exact absurd rfl hl
  | [c1] =>
    cases u with
    | nil => simp [matchBuster]
    | cons u1 us =>
      have h1 : ('&' : Char) ≠ '_' := by decide
      have h2 : ('&' : Char) ≠ '=' := by decide
      simp [matchBuster, h1, h2]
  | [c1, c2] =>
    have h2 : ('&' : Char) ≠ '=' := by decide
    have hamp : ('&' : Char).isDigit = false := by decide
    simp [matchBuster, chompDigits, h2, hamp]
  | c1 :: c2 :: c3 :: rest =>
    by_cases hA : c1 = '&' ∧ c2 = '_' ∧ c3 = '='
    · simp [matchBuster, hA, chompDigits_append]
    · by_cases hB : c1 = '_' ∧ c2 = '='
      · have hc := chompDigits_append (c3 :: rest) u
        simp only [List.cons_append] at hc
        simp [matchBuster, hA, hB, hc]
      · simp [matchBuster, hA, hB]

/-- Appending a well-formed trailing cache-buster parameter (`&_=` followed
by a nonempty digit run) does not change the output of the substitution
loop: the appended block is removed entirely and no other match is
disturbed. -/
theorem subBuster_append_nonce {nd : List Char} (hne : nd ≠ [])
    (hdig : ∀ c ∈ nd, c.isDigit) :
    ∀ l : List Char, subBuster (l ++ '&' :: '_' :: '=' :: nd) = subBuster l := by
  have base : subBuster ('&' :: '_' :: '=' :: nd) = [] := by
    obtain ⟨d, ds, rfl⟩ := List.exists_cons_of_ne_nil hne
    have hd : d.isDigit := hdig d (List.mem_cons_self d ds)
    have hds : ds.dropWhile Char.isDigit = [] :=
      List.dropWhile_eq_nil_iff.mpr fun c hc => hdig c (List.mem_cons_of_mem d hc)
    have hm : matchBuster ('&' :: '_' :: '=' :: d :: ds) = some [] := by
      simp [matchBuster, chompDigits, hd, hds]
    rw [subBuster_some hm, subBuster_nil]
  have main : ∀ (n : Nat) (l : List Char), l.length ≤ n →
      subBuster (l ++ '&' :: '_' :: '=' :: nd) = subBuster l := by
    intro n
    induction n with
    | zero =>
      intro l hl
      have hnil : l = [] := List.eq_nil_of_length_eq_zero (Nat.le_zero.mp hl)
      subst hnil
      simpa using base
    | succ n ih =>
      intro l hl
      cases l with
      | nil => simpa using base
      | cons c cs =>
        have hmb := matchBuster_append (c :: cs) ('_' :: '=' :: nd) (by simp)
        cases hm : matchBuster (c :: cs) with
        | some rest =>
          rw [hm] at hmb
          have hm2 : matchBuster (c :: (cs ++ '&' :: '_' :: '=' :: nd))
              = some (rest ++ '&' :: '_' :: '=' :: nd) := hmb
          show subBuster (c :: (cs ++ '&' :: '_' :: '=' :: nd)) = subBuster (c :: cs)
          rw [subBuster_some hm2, subBuster_some hm]
          have hlen := matchBuster_length hm
          simp only [List.length_cons] at hl hlen
          exact ih rest (by omega)
        | none =>
          rw [hm] at hmb
          have hm2 : matchBuster (c :: (cs ++ '&' :: '_' :: '=' :: nd)) = none := hmb
          show subBuster (c :: (cs ++ '&' :: '_' :: '=' :: nd)) = subBuster (c :: cs)
          rw [subBuster_none hm2, subBuster_none hm]
          simp only [List.length_cons] at hl
          rw [ih cs (by omega)]
  intro l
  exact main l.length l (Nat.le_refl l.length)

/-- String-level form of `subBuster_append_nonce`. -/
theorem stripCacheBuster_append_nonce (q n : String) (hne : n ≠ "")
    (hdig : ∀ c ∈ n.data, c.isDigit) :
    stripCacheBuster (q ++ "&_=" ++ n) = stripCacheBuster q := by
  have hd : (q ++ "&_=" ++ n).data = q.data ++ '&' :: '_' :: '=' :: n.data := by
    simp [String.data_append]
  have hnd : n.data ≠ [] := fun h => hne (String.ext (h.trans rfl))
  unfold stripCacheBuster
  rw [hd, subBuster_append_nonce hnd hdig q.data]

/-- The appending loop of `get_cache_key` collects exactly the names of the
groups whose `dataset_id` matches, in the stored order. -/
theorem groupNamesLoop_eq_filter (gs : List Group) (did : Nat) :
    groupNamesLoop gs did
      = (gs.filter (fun g => g.dataset_id == did)).map Group.name := by
  induction gs with
  | nil => rfl
  | cons g gs ih =>
    by_cases h : g.dataset_id = did
    · simp [groupNamesLoop, List.filter_cons, h, ih]
    · simp [groupNamesLoop, List.filter_cons, h, ih]

/-- A normalized-value mismatch on a key present in both dictionaries makes
`is_verified_object` fail. -/
theorem is_verified_object_false_of_mismatch
    {kwargs params : List (String × PVal)} {k : String} {v pv : PVal}
    (hk : (k, v) ∈ kwargs) (hp : lookupPVal params k = some pv)
    (hne : v.toStr ≠ pv.toStr) :
    is_verified_object kwargs params = false := by
  unfold is_verified_object
  rw [List.all_eq_false]
  refine ⟨(k, v), hk, ?_⟩
  simp [hp, hne]

/-- `cache_response` stores the response tuple under the key, with
`API_CACHE_TIMEOUT`. -/
theorem cache_response_pages_self (st : CacheState) (key metakey : String)
    (r : Resp) :
    (cache_response st key metakey r).pages key
      = some (⟨r.content, r.status, r.headers⟩, API_CACHE_TIMEOUT) := by
  simp [cache_response]

/-- `cache_response` adds the key to the tracked key set under the metakey,
with `API_CACHE_TIMEOUT`. -/
theorem cache_response_tracks_key (st : CacheState) (key metakey : String)
    (r : Resp) :
    ∃ ks, (cache_response st key metakey r).keysets metakey
        = some (ks, API_CACHE_TIMEOUT) ∧ key ∈ ks := by
  refine ⟨if key ∈ trackedKeys st metakey then trackedKeys st metakey
    else trackedKeys st metakey ++ [key], by simp [cache_response], ?_⟩
  by_cases h : key ∈ trackedKeys st metakey
  · simp [h]
  · simp [h]

/-! ### The claims -/

/-- C1: two safe-method requests with the same path, accept header and
normalized query string but different group tokens always derive different
cache keys — the group token is the final `':'`-joined component, so equal
keys force equal tokens. -/
theorem cache_key_distinct_group_tokens
    (cachePath ct qs1 qs2 : String) (u1 u2 : Option AuthUser)
    (ds1 ds2 : Option Dataset)
    (hq : stripCacheBuster qs1 = stripCacheBuster qs2)
    (hg : groupToken u1 ds1 ≠ groupToken u2 ds2) :
    get_cache_key cachePath qs1 ct u1 ds1 ≠ get_cache_key cachePath qs2 ct u2 ds2 := by
  intro h
  apply hg
  have h1 : (cachePath ++ ":" ++ ct ++ ":" ++ stripCacheBuster qs1 ++ ":")
        ++ groupToken u1 ds1
      = (cachePath ++ ":" ++ ct ++ ":" ++ stripCacheBuster qs2 ++ ":")
        ++ groupToken u2 ds2 := h
  rw [hq] at h1
  exact string_append_left_cancel h1

/-- Witness for C1 at a concrete input: an owner request and an anonymous
request for the same path, accept header and normalized query string get
different cache keys. -/
theorem cache_key_distinct_group_tokens_witness :
    stripCacheBuster "x=1&_=99" = stripCacheBuster "x=1"
    ∧ groupToken (some ⟨1, []⟩) (some ⟨10, 1⟩) ≠ groupToken none none
    ∧ get_cache_key "/api/places" "x=1&_=99" "application/json"
          (some ⟨1, []⟩) (some ⟨10, 1⟩)
      ≠ get_cache_key "/api/places" "x=1" "application/json" none none :=
  ⟨by decide, by decide,
    cache_key_distinct_group_tokens "/api/places" "application/json"
      "x=1&_=99" "x=1" (some ⟨1, []⟩) none (some ⟨10, 1⟩) none
      (by decide) (by decide)⟩

/-- C6 counterexample: the claim fails when the numeric nonce is present as
a non-trailing parameter.  For the query string `_=5&x=1` (nonce present)
versus `x=1` (nonce absent), `re.sub(r'&?_=\d+', '', ·)` leaves a stray
leading `&`, so the two derived keys differ. -/
theorem cache_key_nonce_position_counterexample :
    get_cache_key "/api/places" "_=5&x=1" "application/json" none none
      ≠ get_cache_key "/api/places" "x=1" "application/json" none none := by
  decide

/-- C6 (amended): cache-key derivation is invariant under the cache-busting
nonce when the nonce parameter is appended as the trailing parameter
(`query ++ "&_=" ++ digits`, the form the jQuery client produces): for every
query string and every nonempty numeric nonce, the derived key equals the
key derived without the nonce. -/
theorem cache_key_trailing_nonce_invariant
    (cachePath ct q n : String) (user : Option AuthUser) (ds : Option Dataset)
    (hne : n ≠ "") (hdig : ∀ c ∈ n.data, c.isDigit) :
    get_cache_key cachePath (q ++ "&_=" ++ n) ct user ds
      = get_cache_key cachePath q ct user ds := by
  unfold get_cache_key
  rw [stripCacheBuster_append_nonce q n hne hdig]

/-- Witness for the amended C6 at a concrete input: appending the trailing
jQuery nonce `&_=1699999999` to `x=1` leaves the cache key unchanged. -/
theorem cache_key_trailing_nonce_invariant_witness :
    ("1699999999" : String) ≠ ""
    ∧ (∀ c ∈ ("1699999999" : String).data, c.isDigit)
    ∧ get_cache_key "/api/places" ("x=1" ++ "&_=" ++ "1699999999")
          "application/json" none none
      = get_cache_key "/api/places" "x=1" "application/json" none none :=
  ⟨by decide, by decide,
    cache_key_trailing_nonce_invariant "/api/places" "application/json"
      "x=1" "1699999999" none none (by decide) (by decide)⟩

/-- C7 counterexample: the group token for the dataset owner is the literal
`'__owners__'`, not `"owner"`, and for a group member the names are joined
in stored order, not sorted: groups stored as `beta, alpha` yield
`"beta,alpha"`, not the sorted `"alpha,beta"`. -/
theorem group_token_literal_counterexample :
    groupToken (some ⟨1, []⟩) (some ⟨10, 1⟩) = "__owners__"
    ∧ "__owners__" ≠ "owner"
    ∧ groupToken (some ⟨2, [⟨10, "beta"⟩, ⟨10, "alpha"⟩]⟩) (some ⟨10, 1⟩)
        = "beta,alpha"
    ∧ ("beta,alpha" : String) ≠ "alpha,beta" :=
  ⟨by decide, by decide, by decide, by decide⟩

/-- The group token as the amended C7 describes it: `'__owners__'` when the
authenticated Subject is the dataset owner; otherwise the comma-join, in
stored membership order, of the names of the groups the Subject belongs to
within that dataset; otherwise (anonymous or no dataset) the empty string.
Written from the amended claim's words, for comparison with `groupToken`. -/
def groupTokenSpec (user : Option AuthUser) (dataset : Option Dataset) : String :=
  match user, dataset with
  | some u, some ds =>
    if u.id = ds.owner_id then "__owners__"
    else String.intercalate ","
      ((u.groups.filter (fun g => g.dataset_id == ds.id)).map Group.name)
  | _, _ => ""

/-- C7 (amended): the group token used as the cache-partitioning dimension
is exactly: `'__owners__'` when the authenticated Subject is the dataset
owner; otherwise the comma-joined list, in stored order (not sorted), of the
names of the groups the Subject belongs to within that dataset; otherwise
(anonymous or no dataset) the empty string. -/
theorem group_token_spec_equiv (user : Option AuthUser) (ds : Option Dataset) :
    groupToken user ds = groupTokenSpec user ds := by
  match user, ds with
  | none, _ => rfl
  | some u, none => rfl
  | some u, some d =>
    by_cases h : u.id = d.owner_id
    · simp [groupToken, groupTokenSpec, h]
    · simp [groupToken, groupTokenSpec, h, groupNamesLoop_eq_filter]

/-- An empty cache store. -/
def emptyCache : CacheState :=
  { pages := fun _ => none, keysets := fun _ => none }

/-- A cache store holding a page under key `k1` whose key is in no tracked
key set. -/
def cacheWithUntrackedPage : CacheState :=
  { pages := fun k =>
      if k = "k1" then some (⟨"stale-cached-data", 200, []⟩, 604800) else none,
    keysets := fun _ => none }

/-- C2: on a safe-method request, the cached response is served exactly when
the stored response data exists and the cache key is in the tracked key set
under the metakey; when the key is untracked, the request is a miss and the
returned response is the handler's response, never the stored entry. -/
theorem cache_hit_requires_tracked_key
    (m : Method) (key metakey : String) (handler : Resp) (st : CacheState)
    (hm : m.isSafe = true) :
    ((dispatch m key metakey handler st).servedFromCache = true ↔
        (st.pages key).isSome = true ∧ key ∈ trackedKeys st metakey)
    ∧ (key ∉ trackedKeys st metakey →
        (dispatch m key metakey handler st).resp
            = setHeader handler "Cache-Control" "no-cache"
        ∧ (dispatch m key metakey handler st).servedFromCache = false) := by
  cases hp : st.pages key with
  | some p =>
    by_cases hk : key ∈ trackedKeys st metakey
    · simp [dispatch, hm, hp, hk]
    · simp [dispatch, hm, hp, hk]
  | none => simp [dispatch, hm, hp]

/-- Witness for C2 at a concrete input: a page present in the raw store
under `k1` but tracked by no metakey is not served — the handler's response
is returned instead. -/
theorem cache_hit_requires_tracked_key_witness :
    Method.isSafe Method.GET = true
    ∧ (((dispatch Method.GET "k1" "mk" ⟨"fresh", 200, []⟩
            cacheWithUntrackedPage).servedFromCache = true ↔
          (cacheWithUntrackedPage.pages "k1").isSome = true
          ∧ "k1" ∈ trackedKeys cacheWithUntrackedPage "mk")
      ∧ ("k1" ∉ trackedKeys cacheWithUntrackedPage "mk" →
          (dispatch Method.GET "k1" "mk" ⟨"fresh", 200, []⟩
              cacheWithUntrackedPage).resp
            = setHeader ⟨"fresh", 200, []⟩ "Cache-Control" "no-cache"
          ∧ (dispatch Method.GET "k1" "mk" ⟨"fresh", 200, []⟩
              cacheWithUntrackedPage).servedFromCache = false)) :=
  ⟨rfl, cache_hit_requires_tracked_key Method.GET "k1" "mk" ⟨"fresh", 200, []⟩
    cacheWithUntrackedPage rfl⟩

/-- C5 counterexample: a safe-method cache miss whose handler response has
status 201 Created — a success-class status — is not cached at all: neither
the entry nor the tracked key set is written. -/
theorem success_class_not_cached_counterexample :
    (200 ≤ 201 ∧ 201 < 300)
    ∧ (dispatch Method.GET "k" "mk" ⟨"d", 201, []⟩ emptyCache).cache.pages "k"
        = none
    ∧ (dispatch Method.GET "k" "mk" ⟨"d", 201, []⟩ emptyCache).cache.keysets "mk"
        = none :=
  ⟨⟨by decide, by decide⟩, rfl, rfl⟩

/-- C5 (amended): on a safe-method cache-miss request, the response is
cached exactly when its status is 200 OK (not any success-class status): on
a 200, the entry is written under the derived key and the key is added to
the tracked key set under the metakey, both with the same TTL
(`API_CACHE_TIMEOUT`); on any other status the cache is untouched. -/
theorem cache_write_exactly_on_200
    (m : Method) (key metakey : String) (handler : Resp) (st : CacheState)
    (hm : m.isSafe = true)
    (hmiss : st.pages key = none ∨ key ∉ trackedKeys st metakey) :
    (handler.status = 200 →
        (dispatch m key metakey handler st).cache.pages key
            = some (⟨handler.content, handler.status, handler.headers⟩,
                API_CACHE_TIMEOUT)
        ∧ ∃ ks, (dispatch m key metakey handler st).cache.keysets metakey
              = some (ks, API_CACHE_TIMEOUT) ∧ key ∈ ks)
    ∧ (handler.status ≠ 200 → (dispatch m key metakey handler st).cache = st) := by
  have hdisp : (dispatch m key metakey handler st).cache
      = if handler.status = 200 then cache_response st key metakey handler
        else st := by
    cases hp : st.pages key with
    | some p =>
      have hk : key ∉ trackedKeys st metakey := by
        rcases hmiss with h | h
        · rw [hp] at h; exact absurd h (by simp)
        · exact h
      simp [dispatch, hm, hp, hk]
    | none => simp [dispatch, hm, hp]
  constructor
  · intro h200
    rw [hdisp, if_pos h200]
    exact ⟨cache_response_pages_self st key metakey handler,
      cache_response_tracks_key st key metakey handler⟩
  · intro hne
    rw [hdisp, if_neg hne]

/-- Witness for the amended C5 at a concrete input: a 200 GET response on an
empty cache is stored under its key, and the key is tracked, both with
`API_CACHE_TIMEOUT`. -/
theorem cache_write_exactly_on_200_witness :
    Method.isSafe Method.GET = true
    ∧ (emptyCache.pages "k" = none ∨ "k" ∉ trackedKeys emptyCache "mk")
    ∧ (((⟨"d", 200, []⟩ : Resp).status = 200 →
          (dispatch Method.GET "k" "mk" ⟨"d", 200, []⟩ emptyCache).cache.pages "k"
              = some (⟨"d", 200, []⟩, API_CACHE_TIMEOUT)
          ∧ ∃ ks, (dispatch Method.GET "k" "mk" ⟨"d", 200, []⟩
                emptyCache).cache.keysets "mk"
                = some (ks, API_CACHE_TIMEOUT) ∧ "k" ∈ ks)
        ∧ ((⟨"d", 200, []⟩ : Resp).status ≠ 200 →
            (dispatch Method.GET "k" "mk" ⟨"d", 200, []⟩ emptyCache).cache
              = emptyCache)) :=
  ⟨rfl, Or.inl rfl,
    cache_write_exactly_on_200 Method.GET "k" "mk" ⟨"d", 200, []⟩ emptyCache
      rfl (Or.inl rfl)⟩

/-- C9 counterexample: a POST request handled by the cached dispatch returns
without flushing the request-scoped cache write buffer at all — the
non-safe-method branch returns before `cache_buffer.flush()`. -/
theorem unsafe_method_skips_flush_counterexample :
    (dispatch Method.POST "k" "mk" ⟨"d", 200, []⟩ emptyCache).bufferFlushes = 0
    ∧ (0 : Nat) ≠ 1 :=
  ⟨rfl, by decide⟩

/-- C9 (amended): the cached dispatch flushes the cache write buffer exactly
once for every safe-method request — hit or miss, whatever the handler's
response status, including error statuses — and zero times for a non-safe
method, whose early return bypasses the cache layer and the flush. -/
theorem flush_count_by_method (m : Method) (key metakey : String)
    (handler : Resp) (st : CacheState) :
    (dispatch m key metakey handler st).bufferFlushes
      = if m.isSafe then 1 else 0 := by
  cases hm : m.isSafe with
  | false => simp [dispatch, hm]
  | true =>
    cases hp : st.pages key with
    | some p =>
      by_cases hk : key ∈ trackedKeys st metakey
      · simp [dispatch, hm, hp, hk]
      · simp [dispatch, hm, hp, hk]
    | none => simp [dispatch, hm, hp]

/-- C3: client authenticators are tried in order; after any run of
authenticators that returned `None`, the first one returning a non-null
result wins, one raising a structured authentication error fails the whole
resolution immediately with that error (fail-closed, whatever comes after),
and exhausting the list yields an unauthenticated (`None`) client with no
error. -/
theorem client_authentication_order
    (pre rest : List AuthOutcome) (c : Client) (t : Token) (e : ApiErr)
    (hpre : ∀ a ∈ pre, a = AuthOutcome.noResult) :
    authenticate_client (pre ++ AuthOutcome.succeeds c t :: rest)
        = Except.ok (some (c, t))
    ∧ authenticate_client (pre ++ AuthOutcome.raises e :: rest)
        = Except.error e
    ∧ authenticate_client pre = Except.ok none := by
  induction pre with
  | nil => exact ⟨rfl, rfl, rfl⟩
  | cons a as ih =>
    have ha : a = AuthOutcome.noResult := hpre a (List.mem_cons_self a as)
    subst ha
    have h2 := ih fun x hx => hpre x (List.mem_cons_of_mem _ hx)
    simpa [authenticate_client] using h2

/-- Witness for C3 at a concrete input: after one silent authenticator, a
key authenticator that succeeds wins, one that raises fails the request,
and exhaustion yields an unauthenticated client. -/
theorem client_authentication_order_witness :
    (∀ a ∈ [AuthOutcome.noResult], a = AuthOutcome.noResult)
    ∧ authenticate_client
          ([AuthOutcome.noResult] ++ AuthOutcome.succeeds ⟨7⟩ "key-7" :: [])
        = Except.ok (some (⟨7⟩, "key-7"))
    ∧ authenticate_client
          ([AuthOutcome.noResult] ++ AuthOutcome.raises ⟨"invalid key"⟩ :: [])
        = Except.error ⟨"invalid key"⟩
    ∧ authenticate_client [AuthOutcome.noResult] = Except.ok none :=
  have h := client_authentication_order [AuthOutcome.noResult] [] ⟨7⟩ "key-7"
    ⟨"invalid key"⟩ (by decide)
  ⟨by decide, h.1, h.2.1, h.2.2⟩

/-- C10: once client authentication has completed (`_client_auth` is set),
reading the `client_auth` property returns the subject-authentication
attribute `_auth` — whatever client token is memoized in `_client_auth` —
and fails with an `AttributeError` when `_auth` is unset, rather than
returning the stored client token. -/
theorem client_auth_property_reads_subject_auth
    (outcomes : List AuthOutcome) (st : ReqAuthState) (ca : Option Token)
    (h : st.clientAuthAttr = some ca) :
    client_auth_property outcomes st
      = (match st.authAttr with
         | some v => Except.ok v
         | none => Except.error PropFailure.missingAttr) := by
  unfold client_auth_property
  rw [h]

/-- Witness for C10 at a concrete input: with a client token memoized and
`_auth` unset, reading `client_auth` raises an `AttributeError` instead of
returning the client token. -/
theorem client_auth_property_reads_subject_auth_witness :
    (ReqAuthState.clientAuthAttr ⟨none, some none, some (some "client-secret")⟩
        = some (some "client-secret"))
    ∧ client_auth_property [] ⟨none, some none, some (some "client-secret")⟩
        = Except.error PropFailure.missingAttr :=
  ⟨rfl, client_auth_property_reads_subject_auth []
    ⟨none, some none, some (some "client-secret")⟩ (some "client-secret") rfl⟩

/-- C4 counterexample: for an invisible object fetched without the
`include_invisible` parameter, a path-claim mismatch (owner `userB` in the
path, `userA` on the object) yields the 400 `QueryError`, not the 404 the
claim states. -/
theorem verify_mismatch_invisible_counterexample :
    is_verified_object [("owner_username", PVal.str "userB")]
        [("owner_username", PVal.str "userA")] = false
    ∧ verify_object false false [("owner_username", PVal.str "userB")]
        [("owner_username", PVal.str "userA")] = VerifyOutcome.queryError400
    ∧ VerifyOutcome.queryError400 ≠ VerifyOutcome.http404 :=
  ⟨by decide, rfl, by decide⟩

/-- C4 (amended): whenever the invisibility gate passes (the object is
visible, or invisible resources were explicitly requested), any mismatch
between a path claim and the object's cached identifying attribute — values
compared after string normalization — makes `verify_object` produce exactly
`Http404`: never a forbidden response and never success, including when a
valid object id is requested under a different owner's path. -/
theorem verify_mismatch_yields_404
    (visible includeInvisibleParam : Bool)
    (kwargs params : List (String × PVal)) (k : String) (v pv : PVal)
    (hgate : visible = true ∨ includeInvisibleParam = true)
    (hk : (k, v) ∈ kwargs) (hp : lookupPVal params k = some pv)
    (hne : v.toStr ≠ pv.toStr) :
    verify_object visible includeInvisibleParam kwargs params
      = VerifyOutcome.http404 := by
  have hver := is_verified_object_false_of_mismatch hk hp hne
  have hvis : ¬(visible = false ∧ includeInvisibleParam = false) := by
    rcases hgate with h | h <;> simp [h]
  unfold verify_object
  rw [if_neg hvis, if_pos hver]

/-- Witness for the amended C4 at a concrete input — the confused-deputy
scenario: object 12 belongs to `userA`; a request path asserting `userB`
with object id 12 (id matching after string normalization) is answered with
`Http404`. -/
theorem verify_mismatch_yields_404_witness :
    ((true : Bool) = true ∨ (false : Bool) = true)
    ∧ ("owner_username", PVal.str "userB")
        ∈ [("owner_username", PVal.str "userB"), ("place_id", PVal.str "12")]
    ∧ lookupPVal [("owner_username", PVal.str "userA"), ("place_id", PVal.int 12)]
        "owner_username" = some (PVal.str "userA")
    ∧ (PVal.str "userB").toStr ≠ (PVal.str "userA").toStr
    ∧ verify_object true false
        [("owner_username", PVal.str "userB"), ("place_id", PVal.str "12")]
        [("owner_username", PVal.str "userA"), ("place_id", PVal.int 12)]
        = VerifyOutcome.http404 :=
  ⟨Or.inl rfl, by decide, by decide, by decide,
    verify_mismatch_yields_404 true false
      [("owner_username", PVal.str "userB"), ("place_id", PVal.str "12")]
      [("owner_username", PVal.str "userA"), ("place_id", PVal.int 12)]
      "owner_username" (PVal.str "userB") (PVal.str "userA")
      (Or.inl rfl) (by decide) (by decide) (by decide)⟩

/-- C8 counterexample: the denial for an invisible object requested without
the include-invisible parameter is the `QueryError`, whose status code is
400 Bad Request, not the 404 the claim states. -/
theorem invisible_denial_is_400_counterexample :
    verify_object false false [] [] = VerifyOutcome.queryError400
    ∧ (verify_object false false [] []).statusCode = some 400
    ∧ (some 400 : Option Nat) ≠ some 404 :=
  ⟨rfl, rfl, by decide⟩

/-- C8 (amended): an object marked invisible, requested without the
explicit include-invisible parameter, is always denied by `verify_object`;
the denial is the `QueryError` — a 400 Bad Request, not a 404 — whatever
the path claims and attributes are. -/
theorem invisible_without_param_denied
    (kwargs params : List (String × PVal)) :
    verify_object false false kwargs params = VerifyOutcome.queryError400
    ∧ (verify_object false false kwargs params).statusCode = some 400 :=
  ⟨rfl, rfl⟩

end Shareabouts
